import Mathlib

/-!
Verification development for the `expert-consensus` OpenRouter terminal client
(`src/expert-consensus/openrouter.py`).

The Python source is shallowly embedded: strings are `List Char`, Python dicts
are association lists maintained duplicate-free by `dictInsert` (mirroring
CPython's insertion-order-preserving, overwrite-in-place dict semantics),
fallible operations return `Option`/sum types, and external effects (the
filesystem, the network backend) are passed in as explicit function
parameters.  Concurrency in `fan_out` is modelled by an explicit completion
order: the thread pool's `as_completed` iteration is an arbitrary permutation
of the submitted aliases, taken as a parameter.
-/

set_option autoImplicit false
set_option maxRecDepth 4000

namespace OpenRouter

/-- Program strings are modelled as lists of characters. -/
abbrev Str := List Char

/-- Coercion from Lean string literals to the model's string type. -/
def str (s : String) : Str := s.data

/-- ASCII lower-casing of one character (Python `str.lower` restricted to the
ASCII range, which covers every string the program manipulates). -/
def lowerChar (c : Char) : Char :=
  if 65 ≤ c.toNat ∧ c.toNat ≤ 90 then Char.ofNat (c.toNat + 32) else c

/-- Python `str.lower` on ASCII strings. -/
def pyLower (s : Str) : Str := s.map lowerChar

/-- ASCII upper-casing of one character (Python `str.upper` restricted to ASCII). -/
def upperChar (c : Char) : Char :=
  if 97 ≤ c.toNat ∧ c.toNat ≤ 122 then Char.ofNat (c.toNat - 32) else c

/-- Python `str.upper` on ASCII strings. -/
def pyUpper (s : Str) : Str := s.map upperChar

/-- First-match lookup in an association list (Python dict lookup; the dicts
built below never hold duplicate keys, so first match is the dict's value). -/
def lookup? {α : Type} (k : Str) : List (Str × α) → Option α
  | [] => none
  | (k1, v) :: rest => if k1 = k then some v else lookup? k rest

/-- Python `dict.get(k, d)`. -/
def getD {α : Type} (table : List (Str × α)) (k : Str) (d : α) : α :=
  (lookup? k table).getD d

/-- Python `dict[k] = v`: overwrite in place when the key is present,
append otherwise (CPython dicts preserve insertion order). -/
def dictInsert {α : Type} (k : Str) (v : α) : List (Str × α) → List (Str × α)
  | [] => [(k, v)]
  | (k1, v1) :: rest =>
      if k1 = k then (k, v) :: rest else (k1, v1) :: dictInsert k v rest

/-- Build a dict from a list of key/value pairs in order (later pairs
overwrite earlier ones, as in a Python dict comprehension). -/
def dictOf {α : Type} (l : List (Str × α)) : List (Str × α) :=
  l.foldl (fun acc p => dictInsert p.1 p.2 acc) []

/-- Python `s.split(':', 1)` when `':' in s`: the part before the first colon
and the part after it; `none` when the string has no colon. -/
def splitFirstColon : Str → Option (Str × Str)
  | [] => none
  | c :: rest =>
      if c = ':' then some ([], rest)
      else
        match splitFirstColon rest with
        | some (a, b) => some (c :: a, b)
        | none => none

/-- `MODEL_VARIANTS`: variant suffixes appended with a colon. -/
def MODEL_VARIANTS : List (Str × Str) :=
  [ (str "online",   str ":online")
  , (str "nitro",    str ":nitro")
  , (str "floor",    str ":floor")
  , (str "free",     str ":free")
  , (str "extended", str ":extended") ]

/-- `resolve_model`: resolve an alias to a full model ID, handling variant
suffixes.  The global `_MODEL_ALIASES` table is passed explicitly. -/
def resolve_model (aliases : List (Str × Str)) (model_str : Str) : Str :=
  match splitFirstColon model_str with
  | some (base, variant) =>
      match lookup? variant MODEL_VARIANTS with
      | some variant_suffix => getD aliases (pyLower base) base ++ variant_suffix
      | none => model_str
  | none => getD aliases (pyLower model_str) model_str

/-- One entry of `expert-panel.json`: `alias` and `model` are required,
`enabled`, `provider` and `strength` optional. -/
structure PanelEntry where
  «alias» : Str
  model : Str
  enabled : Option Bool := none
  provider : Option Str := none
  strength : Option Str := none
  deriving DecidableEq, Repr

/-- `get_aliases`: build the alias → model ID dict from the panel. -/
def get_aliases (panel : List PanelEntry) : List (Str × Str) :=
  dictOf (panel.map (fun e => (e.«alias», e.model)))

/-- `get_enabled`: entries whose `enabled` field defaults to `True`. -/
def get_enabled (panel : List PanelEntry) : List PanelEntry :=
  panel.filter (fun e => e.enabled.getD true)

/-- `get_enabled_aliases`. -/
def get_enabled_aliases (panel : List PanelEntry) : List Str :=
  (get_enabled panel).map (fun e => e.«alias»)

/-- `_ensure_panel`'s computation of `_DEFAULT_MODEL`:
`enabled[0]['model'] if enabled else _PANEL[0]['model']`.  Indexing an empty
panel raises in Python; the model returns `none` exactly there. -/
def default_model (panel : List PanelEntry) : Option Str :=
  match get_enabled panel with
  | e :: _ => some e.model
  | [] => (panel.head?).map (fun e => e.model)

/-- The basename of a path: the part after the last slash. -/
def basenameOf (p : Str) : Str := (p.reverse.takeWhile (fun c => c ≠ '/')).reverse

/-- The extension (with its dot) of a basename, as `os.path.splitext` computes
it: the part from the last dot, where leading dots of the basename never start
an extension (`.bashrc` has none). -/
def extOf (p : Str) : Option Str :=
  let b := basenameOf p
  let core := b.drop (b.takeWhile (fun c => c = '.')).length
  let afterRev := core.reverse.takeWhile (fun c => c ≠ '.')
  if afterRev.length = core.length then none else some ('.' :: afterRev.reverse)

/-- Fragment of the Python standard library `mimetypes` extension table with
the entries relevant here.  The model covers single-extension paths; paths
with compression-encoding suffixes (`.gz` etc.) do not occur in this program. -/
def mimetypes_types_map : List (Str × Str) :=
  [ (str ".png",  str "image/png")
  , (str ".jpg",  str "image/jpeg")
  , (str ".jpeg", str "image/jpeg")
  , (str ".webp", str "image/webp")
  , (str ".gif",  str "image/gif")
  , (str ".bmp",  str "image/bmp")
  , (str ".tif",  str "image/tiff")
  , (str ".tiff", str "image/tiff")
  , (str ".svg",  str "image/svg+xml")
  , (str ".txt",  str "text/plain")
  , (str ".html", str "text/html")
  , (str ".pdf",  str "application/pdf") ]

/-- `mimetypes.guess_type`, restricted as described on the table: the MIME
type registered for the path's lower-cased extension, if any. -/
def guess_type (p : Str) : Option Str :=
  match extOf p with
  | some ext => lookup? (pyLower ext) mimetypes_types_map
  | none => none

/-- The base64 alphabet. -/
def base64Alphabet : Str :=
  str "ABCDEFGHIJKLMNOPQRSTUVWXYZabcdefghijklmnopqrstuvwxyz0123456789+/"

/-- The base64 digit for a 6-bit value. -/
def b64Char (n : Nat) : Char := base64Alphabet.getD n '='

/-- `base64.b64encode` on a byte sequence (bytes as naturals below 256). -/
def b64encode : List Nat → Str
  | [] => []
  | [a] => [b64Char (a / 4), b64Char (a % 4 * 16), '=', '=']
  | [a, b] => [b64Char (a / 4), b64Char (a % 4 * 16 + b / 16), b64Char (b % 16 * 4), '=']
  | a :: b :: c :: rest =>
      b64Char (a / 4) :: b64Char (a % 4 * 16 + b / 16) ::
        b64Char (b % 16 * 4 + c / 64) :: b64Char (c % 64) :: b64encode rest

/-- The tuple of MIME types `encode_image` accepts as-is. -/
def allowed_image_mimes : List Str :=
  [str "image/png", str "image/jpeg", str "image/webp", str "image/gif"]

/-- `encode_image`: encode an image file as a base64 data URL.  The filesystem
read is passed in as a function from path to bytes. -/
def encode_image (readFile : Str → List Nat) (path : Str) : Str :=
  let mime_type :=
    match guess_type path with
    | some t => if t ∈ allowed_image_mimes then t else str "image/png"
    | none => str "image/png"
  str "data:" ++ mime_type ++ str ";base64," ++ b64encode (readFile path)

/-- One part of a multimodal user message. -/
inductive Part where
  | text (t : Str)
  | image_url (url : Str)
  deriving DecidableEq, Repr

/-- One chat message of the request body. -/
inductive Msg where
  | system (content : Str)
  | user (content : Str)
  | userParts (content : List Part)
  deriving DecidableEq, Repr

/-- The request body `generate` sends to the backend (the `params` dict with
`extra_body` flattened into the three `extra` fields). -/
structure Params where
  model : Str
  messages : List Msg
  stream : Bool
  temperature : Option Rat := none
  max_tokens : Option Nat := none
  json_response_format : Bool := false
  reasoning_effort : Option Str := none
  web_plugin : Bool := false
  models : Option (List Str) := none
  deriving DecidableEq, Repr

/-- Usage metrics of a non-streaming backend response. -/
structure Usage where
  total_tokens : Nat
  cost : Option Rat := none
  deriving DecidableEq, Repr

/-- A successful non-streaming backend response. -/
structure SingleResp where
  content : Str
  modelEcho : Option Str := none
  usage : Option Usage := none
  deriving DecidableEq, Repr

/-- The dict `OpenRouterClient.generate` returns: `ok` with content, echoed
model and optional usage keys, or a failure with an error message. -/
inductive GenOut where
  | ok (content : Str) (model : Str) (tokens : Option Nat) (cost : Option Rat)
  | err (msg : Str)
  deriving DecidableEq, Repr

/-- `result['ok']`. -/
def GenOut.isOk : GenOut → Bool
  | .ok _ _ _ _ => true
  | .err _ => false

/-- `result['content']` (only read on successes). -/
def GenOut.contentD : GenOut → Str
  | .ok c _ _ _ => c
  | .err _ => []

/-- `result['error']` (only read on failures). -/
def GenOut.errorD : GenOut → Str
  | .ok _ _ _ _ => []
  | .err e => e

/-- The client's environment: the loaded alias table and default model, the
filesystem, and the backend in its streaming and non-streaming forms (an
`Except.error` is a raised exception caught by `generate`). -/
structure Env where
  table : List (Str × Str)
  defaultModel : Str
  fileExists : Str → Bool
  readFile : Str → List Nat
  netStream : Params → Except Str (List Str)
  netSingle : Params → Except Str SingleResp

/-- Arguments of `OpenRouterClient.generate`, with Python `None` defaults
(`images`/`fallbacks` use `[]` for `None`, which Python treats identically
under truthiness). -/
structure GenArgs where
  prompt : Str
  model : Option Str := none
  system : Option Str := none
  stream : Bool := true
  images : List Str := []
  temperature : Option Rat := none
  max_tokens : Option Nat := none
  web_search : Bool := false
  json_mode : Bool := false
  reasoning : Option Str := none
  fallbacks : List Str := []

/-- Python truthiness of an optional string (`None` and `""` are falsy). -/
def pyTruthyStr : Option Str → Bool
  | some s => !s.isEmpty
  | none => false

/-- Python `x or d` for an optional string `x`. -/
def pyOr (o : Option Str) (d : Str) : Str :=
  match o with
  | some s => if s.isEmpty then d else s
  | none => d

/-- The first image path the filesystem check rejects, if any — `generate`
returns at that point of its loop, before any network call. -/
def firstMissing (fexists : Str → Bool) (images : List Str) : Option Str :=
  images.find? (fun i => !fexists i)

/-- The request body `generate` builds (reached only when every referenced
image exists): messages, then optional parameters exactly when the source
sends them (`max_tokens`/`reasoning` under Python truthiness, `temperature`
under an explicit `is not None` check), and the `models` priority list when
the fallback list is non-empty. -/
def buildParams (env : Env) (a : GenArgs) (model : Str) : Params :=
  { model := model
  , messages :=
      (match a.system with
       | some s => if s.isEmpty then [] else [Msg.system s]
       | none => []) ++
      (if a.images.isEmpty then [Msg.user a.prompt]
       else [Msg.userParts (Part.text a.prompt ::
              a.images.map (fun i => Part.image_url (encode_image env.readFile i)))])
  , stream := a.stream
  , temperature := a.temperature
  , max_tokens :=
      match a.max_tokens with
      | some n => if n = 0 then none else some n
      | none => none
  , json_response_format := a.json_mode
  , reasoning_effort := if pyTruthyStr a.reasoning then a.reasoning else none
  , web_plugin := a.web_search
  , models :=
      if a.fallbacks.isEmpty then none
      else some (model :: a.fallbacks.map (resolve_model env.table)) }

/-- `OpenRouterClient.generate`.  Returns the result dict together with the
list of backend calls issued (the incremental console echo of streaming
fragments and wall-clock timing are not modelled; no claim concerns them). -/
def generate (env : Env) (a : GenArgs) : GenOut × List Params :=
  let model := pyOr a.model env.defaultModel
  match firstMissing env.fileExists a.images with
  | some p => (GenOut.err (str "Image not found: " ++ p), [])
  | none =>
      let params := buildParams env a model
      if a.stream then
        match env.netStream params with
        | .ok chunks =>
            (GenOut.ok (chunks.foldl (fun acc c => acc ++ c) []) model none none, [params])
        | .error e => (GenOut.err e, [params])
      else
        match env.netSingle params with
        | .ok r =>
            (GenOut.ok r.content (r.modelEcho.getD model)
              (some (match r.usage with | some u => u.total_tokens | none => 0))
              (match r.usage with | some u => u.cost | none => none), [params])
        | .error e => (GenOut.err e, [params])

/-- An observable emission of the fan-out/synthesis drivers: console lines
(as structured data), per-alias file writes, and stderr lines.  The verbose
in-thread "Querying …" stderr lines of `fan_out` are emitted concurrently in
arbitrary interleaving and are outside the emission model. -/
inductive Event where
  | sep
  | header (shown parenthesized : Str)
  | content (c : Str)
  | errorLine (e : Str)
  | fileWrite (path : Str) (c : Str)
  | stderrStats (tokens : Option Nat)
  | stderrLine (s : Str)
  deriving DecidableEq, Repr

/-- The shared options `fan_out` passes to every per-alias call. -/
structure FanOutArgs where
  prompt : Str
  system : Option Str := none
  images : List Str := []
  temperature : Option Rat := none
  max_tokens : Option Nat := none
  web_search : Bool := false
  json_mode : Bool := false
  reasoning : Option Str := none
  output_dir : Option Str := none
  verbose : Bool := false

/-- `fan_out`'s worker `query_model`: resolve the alias and call `generate`
with the shared options, always non-streaming. -/
def query_model (env : Env) (fa : FanOutArgs) (a : Str) : GenOut :=
  (generate env
    { prompt := fa.prompt
    , model := some (resolve_model env.table a)
    , system := fa.system
    , images := fa.images
    , temperature := fa.temperature
    , max_tokens := fa.max_tokens
    , web_search := fa.web_search
    , json_mode := fa.json_mode
    , reasoning := fa.reasoning
    , stream := false }).1

/-- The `results` dict `fan_out` assembles from `as_completed`: one
`results[alias] = result` dict write per future, in completion order.  The
completion order is the nondeterminism parameter of the model. -/
def fanOutCollect (env : Env) (fa : FanOutArgs) (order : List Str) :
    List (Str × GenOut) :=
  order.foldl (fun acc a => dictInsert a (query_model env fa a) acc) []

/-- What `fan_out`'s result loop emits for one alias: separator lines and the
header, then the content (plus the per-alias file write and the verbose stats
line) on success, or the error line on failure.  The stats line renders the
`tokens` key under Python truthiness; elapsed time is not modelled. -/
def emitOne (env : Env) (fa : FanOutArgs) (a : Str) (r : GenOut) : List Event :=
  [Event.sep, Event.header (pyUpper a) (getD env.table a a), Event.sep] ++
    match r with
    | .ok c _ tokens _ =>
        [Event.content c] ++
        (match fa.output_dir with
         | some d => [Event.fileWrite (d ++ str "/" ++ a ++ str ".md") c]
         | none => []) ++
        (if fa.verbose then
          [Event.stderrStats
            (match tokens with
             | some t => if t = 0 then none else some t
             | none => none)]
         else [])
    | .err e => [Event.errorLine (str "Error: " ++ e)]

/-- `fan_out`'s result loop over the caller-supplied alias list, reading each
alias's outcome from the dict with the `No response` default. -/
def emitAll (env : Env) (fa : FanOutArgs) (results : List (Str × GenOut)) :
    List Str → List Event
  | [] => []
  | a :: rest =>
      emitOne env fa a (getD results a (GenOut.err (str "No response"))) ++
        emitAll env fa results rest

/-- `fan_out`: dispatch one `query_model` per alias concurrently, collect the
outcome dict in completion order, then render/persist in the caller-supplied
alias list order.  Returns the dict and the emission sequence. -/
def fan_out (env : Env) (fa : FanOutArgs) (aliases : List Str)
    (order : List Str) : List (Str × GenOut) × List Event :=
  let results := fanOutCollect env fa order
  (results, emitAll env fa results aliases)

/-- `SYNTHESIS_PROMPT` up to its first `count` placeholder. -/
def SYNTHESIS_PROMPT_A : Str :=
  str "You are not combining. You are not averaging. You are not selecting the best response and polishing it. You are using "

/-- `SYNTHESIS_PROMPT` between its two `count` placeholders. -/
def SYNTHESIS_PROMPT_B : Str :=
  str " independent views of the same question to reconstruct the answer they were all reaching toward.\n\nRules:\n- When multiple models say the same thing in different words, that is high-confidence signal. State it once, precisely.\n- When one model captures something no other mentions — and it\x27s clearly correct — that is the sharpest insight in the set. Treasure it.\n- When one model confidently states something that contradicts the weight of the others, that is noise. Remove it cleanly.\n- When no model addresses something that obviously matters, fill the gap yourself.\n- Density over length. Every sentence earns its place. Half the length, twice the insight.\n- Precision over hedging. Not \"it could be argued that X\" — say \"X is true when Y, false when Z.\"\n- Find the organizing principle that makes everything obvious in retrospect.\n\nStructure your response as:\n\n## Consensus\nThe synthesized answer — the document all "

/-- `SYNTHESIS_PROMPT` between the `count` and `prompt` placeholders. -/
def SYNTHESIS_PROMPT_C : Str :=
  str " models were trying to write.\n\n## Agreement (High Confidence)\nWhere models converge. State each point once with conviction.\n\n## Disagreement\nWhere models genuinely diverge. Name each position and what would resolve it.\n\n## Unique Insights\nPoints only one model caught that add real value.\n\n---\nOriginal prompt: "

/-- `SYNTHESIS_PROMPT` between the `prompt` and `responses` placeholders. -/
def SYNTHESIS_PROMPT_D : Str := str "\n\nResponses:\n"

/-- `SYNTHESIS_PROMPT.format(count=…, prompt=…, responses=…)`. -/
def formatSynthesis (count : Nat) (prompt responses : Str) : Str :=
  SYNTHESIS_PROMPT_A ++ str (toString count) ++ SYNTHESIS_PROMPT_B ++
    str (toString count) ++ SYNTHESIS_PROMPT_C ++ prompt ++
    SYNTHESIS_PROMPT_D ++ responses

/-- The `responses_text` accumulation of `synthesize`: one labeled block per
entry of the filtered dict, in its iteration order. -/
def responsesText (table : List (Str × Str)) (successful : List (Str × GenOut)) : Str :=
  successful.foldl
    (fun acc p =>
      acc ++ str "\n### " ++ pyUpper p.1 ++ str " (" ++ getD table p.1 p.1 ++
        str ")\n" ++ p.2.contentD ++ str "\n")
    []

/-- `synthesize`: filter the fan-out dict to successes, refuse below two,
otherwise build the meta-prompt and issue one streaming `generate` call.
Returns the synthesized content (if that call succeeded), the backend calls
issued, and the emission sequence. -/
def synthesize (env : Env) (prompt : Str) (results : List (Str × GenOut))
    (model : Option Str) (verbose : Bool) :
    Option Str × List Params × List Event :=
  let successful := results.filter (fun p => p.2.isOk)
  if successful.length < 2 then
    (none, [],
      [Event.stderrLine (str "Error: Need at least 2 successful responses to synthesize")])
  else
    let synthesis_input :=
      formatSynthesis successful.length prompt (responsesText env.table successful)
    let synth_model :=
      match model with
      | some m => if m.isEmpty then env.defaultModel else resolve_model env.table m
      | none => env.defaultModel
    let events :=
      (if verbose then
        [Event.stderrLine (str "Synthesizing with " ++ synth_model ++ str "...")]
       else []) ++
      [Event.sep, Event.header (str "SYNTHESIS") synth_model, Event.sep]
    let out := generate env { prompt := synthesis_input, model := some synth_model, stream := true }
    ((if out.1.isOk then some out.1.contentD else none), out.2, events)

/-! ### Fixtures used by witnesses and counterexamples -/

/-- A panel entry as in the bootstrap template. -/
def demoClaude : PanelEntry :=
  { «alias» := str "claude", model := str "anthropic/claude-opus-4.6"
  , enabled := some true, provider := some (str "Anthropic")
  , strength := some (str "Deepest reasoning, edge cases") }

/-- A second enabled entry. -/
def demoGpt : PanelEntry :=
  { «alias» := str "gpt", model := str "openai/gpt-5.2"
  , enabled := some true, provider := some (str "OpenAI")
  , strength := some (str "Strong all-round, structured output") }

/-- A disabled entry. -/
def demoLlama : PanelEntry :=
  { «alias» := str "llama", model := str "meta-llama/llama-4-maverick"
  , enabled := some false, provider := some (str "Meta")
  , strength := some (str "128-expert MoE, multimodal") }

/-- A small panel in the shape of the bootstrap template. -/
def demoPanel : List PanelEntry := [demoClaude, demoGpt, demoLlama]

/-! ### Splitting on the first colon -/

/-- Appending `":" ++ v` to a colon-free string splits back into the parts. -/
theorem splitFirstColon_of_append (a v : Str) (h : ':' ∉ a) :
    splitFirstColon (a ++ ':' :: v) = some (a, v) := by
  induction a with
  | nil => simp [splitFirstColon]
  | cons c rest ih =>
      have hc : ¬ c = ':' := fun hc => h (hc ▸ List.mem_cons_self c rest)
      have hrest : ':' ∉ rest := fun hm => h (List.mem_cons_of_mem c hm)
      simp [splitFirstColon, hc, ih hrest]

/-- A colon-free string does not split. -/
theorem splitFirstColon_of_not_mem (s : Str) (h : ':' ∉ s) :
    splitFirstColon s = none := by
  induction s with
  | nil => rfl
  | cons c rest ih =>
      have hc : ¬ c = ':' := fun hc => h (hc ▸ List.mem_cons_self c rest)
      have hrest : ':' ∉ rest := fun hm => h (List.mem_cons_of_mem c hm)
      simp [splitFirstColon, hc, ih hrest]

/-- C3: for every alias table, every colon-free token `a` and every known
variant name `v` with literal suffix `suf`, resolving `a ++ ":" ++ v` yields
the resolution of `a` alone concatenated with `suf`. -/
theorem resolve_model_variant_suffix_law (table : List (Str × Str)) (a v suf : Str)
    (ha : ':' ∉ a) (hv : lookup? v MODEL_VARIANTS = some suf) :
    resolve_model table (a ++ ':' :: v) = resolve_model table a ++ suf := by
  simp only [resolve_model, splitFirstColon_of_append a v ha,
    splitFirstColon_of_not_mem a ha, hv]

/-- Witness for C3 at `claude:online` over the demo panel. -/
theorem resolve_model_variant_suffix_law_witness :
    ':' ∉ str "claude" ∧
    lookup? (str "online") MODEL_VARIANTS = some (str ":online") ∧
    resolve_model (get_aliases demoPanel) (str "claude" ++ ':' :: str "online") =
      resolve_model (get_aliases demoPanel) (str "claude") ++ str ":online" :=
  ⟨by decide, by decide,
    resolve_model_variant_suffix_law (get_aliases demoPanel) (str "claude")
      (str "online") (str ":online") (by decide) (by decide)⟩

/-- C4: a token that contains a colon whose suffix after the first colon is
not a known variant name passes through `resolve_model` unchanged. -/
theorem resolve_model_unknown_variant_pass_through (table : List (Str × Str))
    (t base v : Str) (hsplit : splitFirstColon t = some (base, v))
    (hv : lookup? v MODEL_VARIANTS = none) :
    resolve_model table t = t := by
  simp only [resolve_model, hsplit, hv]

/-- Witness for C4 at `anthropic/claude-opus-4.6:custom`. -/
theorem resolve_model_unknown_variant_pass_through_witness :
    splitFirstColon (str "anthropic/claude-opus-4.6:custom") =
      some (str "anthropic/claude-opus-4.6", str "custom") ∧
    lookup? (str "custom") MODEL_VARIANTS = none ∧
    resolve_model (get_aliases demoPanel) (str "anthropic/claude-opus-4.6:custom") =
      str "anthropic/claude-opus-4.6:custom" :=
  ⟨by decide, by decide,
    resolve_model_unknown_variant_pass_through (get_aliases demoPanel)
      (str "anthropic/claude-opus-4.6:custom") (str "anthropic/claude-opus-4.6")
      (str "custom") (by decide) (by decide)⟩

/-- C5 counterexample: two tokens whose alias portions differ only in letter
case resolve to different results when the (lower-cased) token is not in the
alias table — the original token passes through verbatim, case included. -/
theorem resolve_model_case_insensitivity_counterexample :
    pyLower (str "FooBar") = pyLower (str "foobar") ∧
    resolve_model (get_aliases demoPanel) (str "FooBar") ≠
      resolve_model (get_aliases demoPanel) (str "foobar") := by
  decide

/-- C5 amended: on colon-free tokens whose lower-casing is literally a key of
the alias table, resolution is case-insensitive and yields that key's model
id. -/
theorem resolve_model_case_insensitive_on_table_hit (table : List (Str × Str))
    (b1 b2 m : Str) (h1 : ':' ∉ b1) (h2 : ':' ∉ b2)
    (hlow : pyLower b1 = pyLower b2) (hm : lookup? (pyLower b1) table = some m) :
    resolve_model table b1 = m ∧ resolve_model table b2 = m := by
  refine ⟨?_, ?_⟩ <;>
    simp [resolve_model, splitFirstColon_of_not_mem b1 h1,
      splitFirstColon_of_not_mem b2 h2, getD, ← hlow, hm]

/-- Witness for amended C5 at `Claude`/`claude` over the demo panel. -/
theorem resolve_model_case_insensitive_on_table_hit_witness :
    pyLower (str "Claude") = pyLower (str "claude") ∧
    lookup? (pyLower (str "Claude")) (get_aliases demoPanel) =
      some (str "anthropic/claude-opus-4.6") ∧
    resolve_model (get_aliases demoPanel) (str "Claude") =
        str "anthropic/claude-opus-4.6" ∧
    resolve_model (get_aliases demoPanel) (str "claude") =
        str "anthropic/claude-opus-4.6" := by
  refine ⟨by decide, by decide, ?_⟩
  exact resolve_model_case_insensitive_on_table_hit (get_aliases demoPanel)
    (str "Claude") (str "claude") (str "anthropic/claude-opus-4.6")
    (by decide) (by decide) (by decide) (by decide)

/-- C8 counterexample: for `doc.txt` the extension is recognized (it maps to
`text/plain`), yet the data URL is still prefixed with the default
`image/png` — so the default is not used *exactly* when the extension is
unrecognized or missing, and the URL is not prefixed with the inferred type. -/
theorem encode_image_default_mime_counterexample :
    guess_type (str "doc.txt") = some (str "text/plain") ∧
    encode_image (fun _ => []) (str "doc.txt") = str "data:image/png;base64," := by
  decide

/-- C8 amended: the data URL is prefixed with the guessed MIME type when that
type is one of the four accepted image types, and with the default
`image/png` otherwise — including, but not only, when the extension is
unrecognized or missing. -/
theorem encode_image_mime_selection (readFile : Str → List Nat) (path : Str) :
    (∀ t, guess_type path = some t → t ∈ allowed_image_mimes →
      encode_image readFile path =
        str "data:" ++ t ++ str ";base64," ++ b64encode (readFile path)) ∧
    (∀ t, guess_type path = some t → t ∉ allowed_image_mimes →
      encode_image readFile path =
        str "data:image/png;base64," ++ b64encode (readFile path)) ∧
    (guess_type path = none →
      encode_image readFile path =
        str "data:image/png;base64," ++ b64encode (readFile path)) := by
  refine ⟨?_, ?_, ?_⟩
  · intro t ht hmem
    simp [encode_image, ht, hmem, List.append_assoc]
  · intro t ht hmem
    simp only [encode_image, ht, if_neg hmem]
    rfl
  · intro h
    simp only [encode_image, h]
    rfl

/-- Witness for amended C8 at a `.jpg` path with one byte of content. -/
theorem encode_image_mime_selection_witness :
    guess_type (str "photos/cat.JPG") = some (str "image/jpeg") ∧
    str "image/jpeg" ∈ allowed_image_mimes ∧
    encode_image (fun _ => [255]) (str "photos/cat.JPG") =
      str "data:" ++ str "image/jpeg" ++ str ";base64," ++ b64encode [255] :=
  ⟨by decide, by decide,
    (encode_image_mime_selection (fun _ => [255]) (str "photos/cat.JPG")).1
      (str "image/jpeg") (by decide) (by decide)⟩

/-- The first panel entry carrying a given alias, and the clause of the claim
that `default_model` prefers the entry whose alias is a conventional default
name `d` whenever one is present. -/
def firstWithAlias (d : Str) (panel : List PanelEntry) : Option PanelEntry :=
  panel.find? (fun e => e.«alias» == d)

/-- The conventional-default-name clause of the claim, parametric in the
conventional name `d`. -/
def conventionalDefaultClause (d : Str) : Prop :=
  ∀ (panel : List PanelEntry) (e : PanelEntry),
    firstWithAlias d panel = some e → default_model panel = some e.model

/-- C9 counterexample: no choice of conventional default name satisfies the
claimed preference tier — for every candidate name `d`, a panel whose first
enabled entry is not aliased `d` but which contains an entry aliased `d`
still yields the first enabled entry's model. -/
theorem default_model_no_conventional_name_tier :
    ¬ ∃ d : Str, conventionalDefaultClause d := by
  rintro ⟨d, h⟩
  have hne : ('x' :: d : Str) ≠ d := by
    intro hEq
    have := congrArg List.length hEq
    simp at this
  have hb1 : (('x' :: d : Str) == d) = false := beq_eq_false_iff_ne.mpr hne
  have hb2 : ((d : Str) == d) = true := beq_self_eq_true d
  have hfind :
      firstWithAlias d
        [ { «alias» := 'x' :: d, model := str "m0", enabled := some true }
        , { «alias» := d, model := str "m1", enabled := some true } ] =
      some { «alias» := d, model := str "m1", enabled := some true } := by
    simp [firstWithAlias, List.find?, hb1, hb2]
  have hx := h _ _ hfind
  have hdm :
      default_model
        [ { «alias» := 'x' :: d, model := str "m0", enabled := some true }
        , { «alias» := d, model := str "m1", enabled := some true } ] =
      some (str "m0") := rfl
  rw [hdm] at hx
  have : str "m0" = str "m1" := by simpa using hx
  exact absurd this (by decide)

/-- C9 amended: `default_model` returns the first enabled entry's model when
some entry is enabled, else the first entry's model, and is undefined exactly
on the empty panel (where the source raises `IndexError`). -/
theorem default_model_first_enabled_else_first (panel : List PanelEntry) :
    (default_model panel = none ↔ panel = []) ∧
    (∀ e rest, get_enabled panel = e :: rest → default_model panel = some e.model) ∧
    (get_enabled panel = [] →
      ∀ e rest, panel = e :: rest → default_model panel = some e.model) := by
  refine ⟨?_, ?_, ?_⟩
  · cases hge : get_enabled panel with
    | nil =>
        cases panel with
        | nil => simp [default_model, hge]
        | cons e rest => simp [default_model, hge]
    | cons e rest =>
        simp only [default_model, hge]
        constructor
        · intro hcontra; exact absurd hcontra (by simp)
        · intro hp
          subst hp
          simp [get_enabled] at hge
  · intro e rest hge
    simp [default_model, hge]
  · intro hge e rest hp
    subst hp
    simp [default_model, hge]

/-- Witness for amended C9 over the demo panel: the first enabled entry is
the `claude` entry and its model is the default. -/
theorem default_model_first_enabled_else_first_witness :
    get_enabled demoPanel = [demoClaude, demoGpt] ∧
    default_model demoPanel = some (str "anthropic/claude-opus-4.6") :=
  ⟨by decide,
    (default_model_first_enabled_else_first demoPanel).2.1 demoClaude [demoGpt]
      (by decide)⟩

/-- An environment whose filesystem rejects every path (for the missing-image
witness); the backends are never reached. -/
def missEnv : Env :=
  { table := get_aliases demoPanel
  , defaultModel := str "anthropic/claude-opus-4.6"
  , fileExists := fun _ => false
  , readFile := fun _ => []
  , netStream := fun _ => Except.error (str "unreachable")
  , netSingle := fun _ => Except.error (str "unreachable") }

/-- An environment with an intact filesystem and a backend that always
answers `pong` to non-streaming calls. -/
def demoEnv : Env :=
  { table := get_aliases demoPanel
  , defaultModel := str "anthropic/claude-opus-4.6"
  , fileExists := fun _ => true
  , readFile := fun _ => [137, 80]
  , netStream := fun _ => Except.error (str "no network")
  , netSingle := fun _ => Except.ok { content := str "pong" } }

/-- C7: when some referenced image path does not exist, `generate` fails
immediately with an error naming the first missing path, and the list of
backend calls issued is empty. -/
theorem generate_missing_image_no_backend_call (env : Env) (a : GenArgs)
    (h : ∃ i ∈ a.images, env.fileExists i = false) :
    ∃ p ∈ a.images, env.fileExists p = false ∧
      generate env a = (GenOut.err (str "Image not found: " ++ p), []) := by
  have hsome : (firstMissing env.fileExists a.images).isSome := by
    rw [firstMissing, List.find?_isSome]
    obtain ⟨i, hi, hf⟩ := h
    exact ⟨i, hi, by simp [hf]⟩
  obtain ⟨p, hp⟩ := Option.isSome_iff_exists.mp hsome
  have hp' : List.find? (fun i => !env.fileExists i) a.images = some p := hp
  refine ⟨p, List.mem_of_find?_eq_some hp', ?_, ?_⟩
  · have := List.find?_some hp'
    simpa using this
  · simp only [generate, hp]

/-- Witness for C7: one missing image, error names it, zero backend calls. -/
theorem generate_missing_image_no_backend_call_witness :
    (∃ i ∈ [str "missing.png"], missEnv.fileExists i = false) ∧
    ∃ p ∈ [str "missing.png"], missEnv.fileExists p = false ∧
      generate missEnv
          { prompt := str "hi", images := [str "missing.png"], stream := false } =
        (GenOut.err (str "Image not found: " ++ p), []) :=
  ⟨by decide,
    generate_missing_image_no_backend_call missEnv
      { prompt := str "hi", images := [str "missing.png"], stream := false }
      (by decide)⟩

/-- When every referenced image exists, `generate` issues exactly one backend
call, carrying the request body it built. -/
theorem generate_calls_of_no_missing (env : Env) (a : GenArgs)
    (h : firstMissing env.fileExists a.images = none) :
    (generate env a).2 = [buildParams env a (pyOr a.model env.defaultModel)] := by
  simp only [generate, h]
  cases hs : a.stream <;> simp only [hs, if_true, if_false, Bool.false_eq_true]
  · cases env.netSingle (buildParams env a (pyOr a.model env.defaultModel)) <;> rfl
  · cases env.netStream (buildParams env a (pyOr a.model env.defaultModel)) <;> rfl

/-- C10: the single backend request of a successful-precondition `generate`
carries the `models` priority list exactly when the fallback list is
non-empty, equal to the primary model id followed by each fallback token
resolved through the alias table, in the caller's order. -/
theorem generate_fallback_models_field (env : Env) (a : GenArgs)
    (h : firstMissing env.fileExists a.images = none) :
    ∃ p : Params, (generate env a).2 = [p] ∧
      p.model = pyOr a.model env.defaultModel ∧
      p.models = (if a.fallbacks.isEmpty then none
        else some (pyOr a.model env.defaultModel ::
          a.fallbacks.map (resolve_model env.table))) :=
  ⟨buildParams env a (pyOr a.model env.defaultModel),
    generate_calls_of_no_missing env a h, rfl, rfl⟩

/-- Witness for C10: a request with two fallbacks (an alias and a verbatim
id) carries the three-element `models` list; one with none carries no
`models` field. -/
theorem generate_fallback_models_field_witness :
    firstMissing demoEnv.fileExists ([] : List Str) = none ∧
    (∃ p : Params,
      (generate demoEnv
        { prompt := str "q", fallbacks := [str "gpt", str "other/model"] }).2 = [p] ∧
      p.model = pyOr none demoEnv.defaultModel ∧
      p.models = (if ([str "gpt", str "other/model"] : List Str).isEmpty then none
        else some (pyOr none demoEnv.defaultModel ::
          [str "gpt", str "other/model"].map (resolve_model demoEnv.table)))) ∧
    ((generate demoEnv
        { prompt := str "q", fallbacks := [str "gpt", str "other/model"] }).2.map
      (fun p => p.models)) =
      [some [str "anthropic/claude-opus-4.6", str "openai/gpt-5.2", str "other/model"]] ∧
    ((generate demoEnv { prompt := str "q" }).2.map (fun p => p.models)) = [none] :=
  ⟨rfl,
    generate_fallback_models_field demoEnv
      { prompt := str "q", fallbacks := [str "gpt", str "other/model"] } rfl,
    by decide, by decide⟩

/-- `generate` issues exactly one backend call when no referenced image is
missing. -/
theorem generate_one_call_of_no_missing (env : Env) (a : GenArgs)
    (h : firstMissing env.fileExists a.images = none) :
    ((generate env a).2).length = 1 := by
  rw [generate_calls_of_no_missing env a h]
  rfl

/-- C6: `synthesize` refuses with the descriptive stderr error and issues
zero backend calls when fewer than two successes remain after filtering, and
issues exactly one backend call when at least two remain. -/
theorem synthesize_success_threshold (env : Env) (prompt : Str)
    (results : List (Str × GenOut)) (model : Option Str) (verbose : Bool) :
    ((results.filter (fun p => p.2.isOk)).length < 2 →
      synthesize env prompt results model verbose =
        (none, [],
          [Event.stderrLine
            (str "Error: Need at least 2 successful responses to synthesize")])) ∧
    (2 ≤ (results.filter (fun p => p.2.isOk)).length →
      ((synthesize env prompt results model verbose).2.1).length = 1) := by
  constructor
  · intro h
    simp [synthesize, if_pos h]
  · intro h
    have hlt : ¬ (results.filter (fun p => p.2.isOk)).length < 2 := not_lt.mpr h
    show ((synthesize env prompt results model verbose).2.1).length = 1
    unfold synthesize
    rw [if_neg hlt]
    exact generate_one_call_of_no_missing env _ rfl

/-- A fan-out dict with exactly one success. -/
def oneOkResults : List (Str × GenOut) :=
  [ (str "x", GenOut.ok (str "A") (str "mx") (some 5) none)
  , (str "y", GenOut.err (str "boom")) ]

/-- A fan-out dict with two successes. -/
def twoOkResults : List (Str × GenOut) :=
  [ (str "x", GenOut.ok (str "A") (str "mx") (some 5) none)
  , (str "y", GenOut.ok (str "B") (str "my") (some 7) none) ]

/-- Witness for C6: one success refuses with zero calls; two successes issue
exactly one call. -/
theorem synthesize_success_threshold_witness :
    (oneOkResults.filter (fun p => p.2.isOk)).length < 2 ∧
    synthesize demoEnv (str "q") oneOkResults none false =
      (none, [],
        [Event.stderrLine
          (str "Error: Need at least 2 successful responses to synthesize")]) ∧
    2 ≤ (twoOkResults.filter (fun p => p.2.isOk)).length ∧
    ((synthesize demoEnv (str "q") twoOkResults none false).2.1).length = 1 :=
  ⟨by decide,
    (synthesize_success_threshold demoEnv (str "q") oneOkResults none false).1
      (by decide),
    by decide,
    (synthesize_success_threshold demoEnv (str "q") twoOkResults none false).2
      (by decide)⟩

/-! ### The fan-out dict under an arbitrary completion order -/

/-- Inserting a fresh key appends it (insertion order preservation). -/
theorem dictInsert_of_not_mem {α : Type} (k : Str) (v : α) (l : List (Str × α))
    (h : k ∉ l.map Prod.fst) : dictInsert k v l = l ++ [(k, v)] := by
  induction l with
  | nil => rfl
  | cons p rest ih =>
      obtain ⟨k1, v1⟩ := p
      have hk : ¬ k1 = k := by
        intro hEq
        exact h (by rw [List.map_cons, hEq]; exact List.mem_cons_self k _)
      have hrest : k ∉ rest.map Prod.fst := by
        intro hm
        exact h (by rw [List.map_cons]; exact List.mem_cons_of_mem k1 hm)
      simp [dictInsert, hk, ih hrest]

/-- Folding fresh-keyed inserts over a duplicate-free key list appends one
entry per key, in fold order. -/
theorem foldl_dictInsert_eq_map {α : Type} (g : Str → α) :
    ∀ (order : List Str) (acc : List (Str × α)), order.Nodup →
      (∀ a ∈ order, a ∉ acc.map Prod.fst) →
      order.foldl (fun acc a => dictInsert a (g a) acc) acc =
        acc ++ order.map (fun a => (a, g a)) := by
  intro order
  induction order with
  | nil => intro acc _ _; simp
  | cons a rest ih =>
      intro acc hnd hdisj
      simp only [List.foldl_cons]
      rw [dictInsert_of_not_mem a (g a) acc (hdisj a (List.mem_cons_self a rest))]
      rw [ih (acc ++ [(a, g a)]) hnd.of_cons ?_]
      · simp
      · intro b hb
        simp only [List.map_append, List.mem_append]
        rintro (hacc | hsing)
        · exact hdisj b (List.mem_cons_of_mem a hb) hacc
        · have hba : b = a := by simpa using hsing
          exact (List.nodup_cons.mp hnd).1 (hba ▸ hb)

/-- Under a duplicate-free completion order, the collected dict is one entry
per alias in completion order, holding that alias's outcome. -/
theorem fanOutCollect_eq_map (env : Env) (fa : FanOutArgs) (order : List Str)
    (h : order.Nodup) :
    fanOutCollect env fa order =
      order.map (fun a => (a, query_model env fa a)) := by
  have := foldl_dictInsert_eq_map (query_model env fa) order [] h (by simp)
  simpa [fanOutCollect] using this

/-- Looking a member key up in the tabulated dict yields its value. -/
theorem lookup?_map_self {α : Type} (g : Str → α) (l : List Str) (a : Str)
    (h : a ∈ l) : lookup? a (l.map (fun x => (x, g x))) = some (g a) := by
  induction l with
  | nil => cases h
  | cons x rest ih =>
      by_cases hx : x = a
      · subst hx; simp [lookup?]
      · have hmem : a ∈ rest := by
          rcases List.mem_cons.mp h with h1 | h2
          · exact absurd h1.symm hx
          · exact h2
        simp [lookup?, hx, ih hmem]

/-- The emission loop only observes the dict through per-alias lookups. -/
theorem emitAll_congr (env : Env) (fa : FanOutArgs)
    (r1 r2 : List (Str × GenOut)) :
    ∀ l : List Str, (∀ a ∈ l, lookup? a r1 = lookup? a r2) →
      emitAll env fa r1 l = emitAll env fa r2 l := by
  intro l
  induction l with
  | nil => intro _; rfl
  | cons a rest ih =>
      intro h
      simp only [emitAll]
      rw [ih (fun b hb => h b (List.mem_cons_of_mem a hb))]
      have ha := h a (List.mem_cons_self a rest)
      simp only [getD, ha]

/-- C1: for distinct aliases and any completion order (a permutation of the
alias list), the fan-out dict holds exactly one entry per alias — each
alias's own outcome, so one alias's failure never disturbs a sibling's entry
— and the emission sequence equals the canonical alias-list-order emission,
independent of the completion order. -/
theorem fan_out_failure_isolation_and_emission_order (env : Env)
    (fa : FanOutArgs) (aliases order : List Str) (hnodup : aliases.Nodup)
    (hperm : List.Perm order aliases) :
    (∀ a ∈ aliases,
      lookup? a (fan_out env fa aliases order).1 =
        some (query_model env fa a)) ∧
    List.Perm ((fan_out env fa aliases order).1.map Prod.fst) aliases ∧
    (fan_out env fa aliases order).2 =
      emitAll env fa (aliases.map (fun a => (a, query_model env fa a)))
        aliases := by
  have hond : order.Nodup := (List.Perm.nodup_iff hperm).mpr hnodup
  have hcol := fanOutCollect_eq_map env fa order hond
  have hlook : ∀ a ∈ aliases,
      lookup? a (fanOutCollect env fa order) =
        some (query_model env fa a) := by
    intro a ha
    rw [hcol]
    exact lookup?_map_self _ order a ((List.Perm.mem_iff hperm).mpr ha)
  refine ⟨hlook, ?_, ?_⟩
  · show List.Perm ((fanOutCollect env fa order).map Prod.fst) aliases
    rw [hcol]
    have hkeys : (order.map (fun a => (a, query_model env fa a))).map Prod.fst
        = order := by
      simp only [List.map_map]
      have hid : (Prod.fst ∘ fun a : Str => (a, query_model env fa a)) = id := rfl
      rw [hid, List.map_id]
    rw [hkeys]
    exact hperm
  · show emitAll env fa (fanOutCollect env fa order) aliases = _
    apply emitAll_congr
    intro a ha
    rw [hlook a ha, lookup?_map_self _ aliases a ha]

/-- An environment for the fan-out witness: the backend fails on model `my`
(alias `y`) and succeeds on every other model. -/
def wEnv : Env :=
  { table := [(str "x", str "mx"), (str "y", str "my"), (str "z", str "mz")]
  , defaultModel := str "mx"
  , fileExists := fun _ => true
  , readFile := fun _ => []
  , netStream := fun _ => Except.error (str "boom")
  , netSingle := fun p =>
      if p.model = str "my" then Except.error (str "timeout")
      else Except.ok { content := str "OK " ++ p.model } }

/-- Shared fan-out options for the witness, with an output directory. -/
def wFa : FanOutArgs := { prompt := str "q", output_dir := some (str "out") }

/-- Witness for C1 over aliases `[x, y, z]` with completion order `[z, x, y]`
where `y`'s call fails: each alias keeps its own outcome, the dict has one
entry per alias, and the emission equals the canonical input-order emission. -/
theorem fan_out_failure_isolation_and_emission_order_witness :
    ([str "x", str "y", str "z"] : List Str).Nodup ∧
    List.Perm [str "z", str "x", str "y"] [str "x", str "y", str "z"] ∧
    (∀ a ∈ [str "x", str "y", str "z"],
      lookup? a
          (fan_out wEnv wFa [str "x", str "y", str "z"]
            [str "z", str "x", str "y"]).1 =
        some (query_model wEnv wFa a)) ∧
    List.Perm
      ((fan_out wEnv wFa [str "x", str "y", str "z"]
          [str "z", str "x", str "y"]).1.map Prod.fst)
      [str "x", str "y", str "z"] ∧
    (fan_out wEnv wFa [str "x", str "y", str "z"]
        [str "z", str "x", str "y"]).2 =
      emitAll wEnv wFa
        ([str "x", str "y", str "z"].map (fun a => (a, query_model wEnv wFa a)))
        [str "x", str "y", str "z"] ∧
    query_model wEnv wFa (str "y") = GenOut.err (str "timeout") ∧
    (query_model wEnv wFa (str "x")).isOk = true := by
  have h := fan_out_failure_isolation_and_emission_order wEnv wFa
    [str "x", str "y", str "z"] [str "z", str "x", str "y"]
    (by decide) (by decide)
  exact ⟨by decide, by decide, h.1, h.2.1, h.2.2, by decide, by decide⟩

/-- An environment whose backend succeeds for every non-streaming call, so a
fan-out over it has only successes. -/
def cEnv : Env :=
  { table := [(str "x", str "mx"), (str "y", str "my")]
  , defaultModel := str "mx"
  , fileExists := fun _ => true
  , readFile := fun _ => []
  , netStream := fun _ => Except.error (str "no network")
  , netSingle := fun p => Except.ok { content := str "R " ++ p.model } }

/-- Shared fan-out options for the completion-order experiments. -/
def cFa : FanOutArgs := { prompt := str "q" }

/-- The responses block is recoverable from the meta-prompt: `formatSynthesis`
is injective in its `responses` argument. -/
theorem formatSynthesis_responses_inj (c : Nat) (p r1 r2 : Str)
    (h : formatSynthesis c p r1 = formatSynthesis c p r2) : r1 = r2 := by
  unfold formatSynthesis at h
  exact List.append_cancel_left h

/-- C2 counterexample: over the same alias list `[x, y]` with both calls
succeeding, the two possible completion orders make `synthesize` send two
different meta-prompts — the backend call issued differs, because the
responses are embedded in dict insertion order, which is completion order. -/
theorem synthesize_meta_prompt_depends_on_completion_order :
    List.Perm [str "y", str "x"] [str "x", str "y"] ∧
    (synthesize cEnv (str "q")
        (fan_out cEnv cFa [str "x", str "y"] [str "x", str "y"]).1 none
        false).2.1 ≠
      (synthesize cEnv (str "q")
        (fan_out cEnv cFa [str "x", str "y"] [str "y", str "x"]).1 none
        false).2.1 := by
  refine ⟨by decide, ?_⟩
  intro hEq
  have s1 : (synthesize cEnv (str "q")
      (fan_out cEnv cFa [str "x", str "y"] [str "x", str "y"]).1 none
      false).2.1 =
      [buildParams cEnv
        { prompt := formatSynthesis
            ((fanOutCollect cEnv cFa [str "x", str "y"]).filter
              (fun p => p.2.isOk)).length (str "q")
            (responsesText cEnv.table
              ((fanOutCollect cEnv cFa [str "x", str "y"]).filter
                (fun p => p.2.isOk)))
        , model := some cEnv.defaultModel
        , stream := true }
        (pyOr (some cEnv.defaultModel) cEnv.defaultModel)] := by
    show (synthesize cEnv (str "q") (fanOutCollect cEnv cFa [str "x", str "y"])
      none false).2.1 = _
    unfold synthesize
    rw [if_neg (by decide :
      ¬ ((fanOutCollect cEnv cFa [str "x", str "y"]).filter
        (fun p => p.2.isOk)).length < 2)]
    exact generate_calls_of_no_missing cEnv _ rfl
  have s2 : (synthesize cEnv (str "q")
      (fan_out cEnv cFa [str "x", str "y"] [str "y", str "x"]).1 none
      false).2.1 =
      [buildParams cEnv
        { prompt := formatSynthesis
            ((fanOutCollect cEnv cFa [str "y", str "x"]).filter
              (fun p => p.2.isOk)).length (str "q")
            (responsesText cEnv.table
              ((fanOutCollect cEnv cFa [str "y", str "x"]).filter
                (fun p => p.2.isOk)))
        , model := some cEnv.defaultModel
        , stream := true }
        (pyOr (some cEnv.defaultModel) cEnv.defaultModel)] := by
    show (synthesize cEnv (str "q") (fanOutCollect cEnv cFa [str "y", str "x"])
      none false).2.1 = _
    unfold synthesize
    rw [if_neg (by decide :
      ¬ ((fanOutCollect cEnv cFa [str "y", str "x"]).filter
        (fun p => p.2.isOk)).length < 2)]
    exact generate_calls_of_no_missing cEnv _ rfl
  rw [s1, s2] at hEq
  have hp := List.head_eq_of_cons_eq hEq
  have hmsg : ([Msg.user (formatSynthesis
      ((fanOutCollect cEnv cFa [str "x", str "y"]).filter
        (fun p => p.2.isOk)).length (str "q")
      (responsesText cEnv.table
        ((fanOutCollect cEnv cFa [str "x", str "y"]).filter
          (fun p => p.2.isOk))))] : List Msg) =
      [Msg.user (formatSynthesis
        ((fanOutCollect cEnv cFa [str "y", str "x"]).filter
          (fun p => p.2.isOk)).length (str "q")
        (responsesText cEnv.table
          ((fanOutCollect cEnv cFa [str "y", str "x"]).filter
            (fun p => p.2.isOk))))] := congrArg Params.messages hp
  have hfmt := Msg.user.inj (List.head_eq_of_cons_eq hmsg)
  rw [(by decide : ((fanOutCollect cEnv cFa [str "x", str "y"]).filter
        (fun p => p.2.isOk)).length = 2),
      (by decide : ((fanOutCollect cEnv cFa [str "y", str "x"]).filter
        (fun p => p.2.isOk)).length = 2)] at hfmt
  have hresp := formatSynthesis_responses_inj 2 (str "q") _ _ hfmt
  exact absurd hresp (by decide)

/-- Filtering the collected dict to successes keeps completion order. -/
theorem fanOutCollect_filter_ok (env : Env) (fa : FanOutArgs)
    (order : List Str) (hnd : order.Nodup) :
    (fanOutCollect env fa order).filter (fun p => p.2.isOk) =
      (order.filter (fun a => (query_model env fa a).isOk)).map
        (fun a => (a, query_model env fa a)) := by
  rw [fanOutCollect_eq_map env fa order hnd, List.filter_map]
  rfl

/-- C2 amended: with at least two successes, `synthesize` issues one
streaming call whose meta-prompt embeds the successful responses — each
labeled by alias and declared model id inside `responsesText` — in the
dict's insertion order, i.e. the completion order of the fan-out calls (not
the fan-out input order). -/
theorem synthesize_embeds_successes_in_insertion_order (env : Env)
    (fa : FanOutArgs) (prompt : Str) (order : List Str) (hnd : order.Nodup)
    (hc : 2 ≤
      ((fanOutCollect env fa order).filter (fun p => p.2.isOk)).length) :
    ∃ p : Params,
      (synthesize env prompt (fanOutCollect env fa order) none false).2.1 =
        [p] ∧
      p.stream = true ∧
      p.messages = [Msg.user (formatSynthesis
        ((fanOutCollect env fa order).filter (fun p => p.2.isOk)).length
        prompt
        (responsesText env.table
          ((order.filter (fun a => (query_model env fa a).isOk)).map
            (fun a => (a, query_model env fa a)))))] := by
  have hfil := fanOutCollect_filter_ok env fa order hnd
  have hlt : ¬ ((fanOutCollect env fa order).filter
      (fun p => p.2.isOk)).length < 2 := not_lt.mpr hc
  refine ⟨buildParams env
    { prompt := formatSynthesis
        ((fanOutCollect env fa order).filter (fun p => p.2.isOk)).length
        prompt
        (responsesText env.table
          ((order.filter (fun a => (query_model env fa a).isOk)).map
            (fun a => (a, query_model env fa a))))
    , model := some env.defaultModel
    , stream := true }
    (pyOr (some env.defaultModel) env.defaultModel), ?_, rfl, rfl⟩
  rw [← hfil]
  unfold synthesize
  rw [if_neg hlt]
  exact generate_calls_of_no_missing env _ rfl

/-- Witness for amended C2 at completion order `[y, x]` over two successes. -/
theorem synthesize_embeds_successes_in_insertion_order_witness :
    ([str "y", str "x"] : List Str).Nodup ∧
    2 ≤ ((fanOutCollect cEnv cFa [str "y", str "x"]).filter
      (fun p => p.2.isOk)).length ∧
    ∃ p : Params,
      (synthesize cEnv (str "q") (fanOutCollect cEnv cFa [str "y", str "x"])
        none false).2.1 = [p] ∧
      p.stream = true ∧
      p.messages = [Msg.user (formatSynthesis
        ((fanOutCollect cEnv cFa [str "y", str "x"]).filter
          (fun p => p.2.isOk)).length
        (str "q")
        (responsesText cEnv.table
          (([str "y", str "x"].filter
            (fun a => (query_model cEnv cFa a).isOk)).map
            (fun a => (a, query_model cEnv cFa a)))))] :=
  ⟨by decide, by decide,
    synthesize_embeds_successes_in_insertion_order cEnv cFa (str "q")
      [str "y", str "x"] (by decide) (by decide)⟩

end OpenRouter
